import Mathlib

/-!
Verification of the identifier resolution layer of the favro-mcp server.

The embedding models, from the Python source:
  - src/favro_mcp/resolvers/base.py   (BaseResolver.resolve, error classes)
  - src/favro_mcp/resolvers/card.py   (CardResolver, sequential id parsing)
  - src/favro_mcp/resolvers/column.py (ColumnResolver)
  - src/favro_mcp/resolvers/user.py   (UserResolver, email third path)
  - src/favro_mcp/api/client.py       (FavroClient method signatures and
    error classes; the resolvers receive this client, see context.py)

Python exceptions are modelled as values of an error type, so a resolver
is a function into Except PyError T.  The network is modelled as an
oracle: each client method is an arbitrary function supplied as data,
returning either a result or an error.
-/

namespace FavroMCP

/-- Exception values that can cross the resolver boundary.  notFound and
ambiguousMatch model NotFoundError and AmbiguousMatchError from
resolvers/base.py; valueError and typeError model the built-in Python
exceptions of those names; favroNotFound models FavroNotFoundError and
favroAPIError the remaining FavroAPIError family (auth, rate limit,
transport) from api/client.py. -/
inductive PyError where
  | notFound (entityType : String) (identifier : String)
  | ambiguousMatch (entityType : String) (name : String)
      (matchList : List (String × String))
  | valueError (msg : String)
  | typeError (msg : String)
  | favroNotFound (status : Nat) (msg : String)
  | favroAPIError (status : Nat) (msg : String)
  deriving Repr, DecidableEq

/-- Card record, the fields used by the resolver (api/models.py: card_id,
name, sequential_id). -/
structure Card where
  card_id : String
  name : String
  sequential_id : Nat
  deriving Repr, DecidableEq

/-- User record, the fields used by the resolver (api/models.py: user_id,
name, email). -/
structure User where
  user_id : String
  name : String
  email : String
  deriving Repr, DecidableEq

/-- Column record, the fields used by the resolver (api/models.py:
column_id, name). -/
structure Column where
  column_id : String
  name : String
  deriving Repr, DecidableEq

/-- Python str.lower modelled per character of the underlying character
list (basic latin range, as Char.toLower; the claims are ASCII). -/
def lower (s : String) : List Char := s.data.map Char.toLower

/-- Python str.strip modelled over the character list: whitespace removed
from both ends. -/
def stripChars (cs : List Char) : List Char :=
  ((cs.dropWhile Char.isWhitespace).reverse.dropWhile Char.isWhitespace).reverse

/-- The fallback branch of BaseResolver.resolve (base.py lines 112-125):
filter the fetched entities by case-insensitive display-name equality,
then zero matches raise NotFoundError, one match is returned, and more
matches raise AmbiguousMatchError carrying the (id, name) pair of every
match in fetch order. -/
def nameLookup {T : Type} (getId : T → String) (getName : T → String)
    (entityType : String) (identifier : String) (entities : List T) :
    Except PyError T :=
  match entities.filter (fun e => lower (getName e) == lower identifier) with
  | [] => .error (.notFound entityType identifier)
  | [e] => .ok e
  | ms => .error (.ambiguousMatch entityType identifier
      (ms.map (fun e => (getId e, getName e))))

/-- BaseResolver.resolve (base.py lines 104-125).  The fast path calls
the subclass _fetch_by_id, whose result is an entity, None, or an
exception; any exception there is swallowed (except Exception: pass) and
only a non-None result short-circuits.  Otherwise _fetch_all runs; an
error from it propagates, and its entity list goes to the name lookup. -/
def baseResolve {T : Type} (fetchById : String → Except PyError (Option T))
    (fetchAll : Except PyError (List T)) (getId : T → String)
    (getName : T → String) (entityType : String) (identifier : String) :
    Except PyError T :=
  match fetchById identifier with
  | .ok (some e) => .ok e
  | _ =>
    match fetchAll with
    | .error err => .error err
    | .ok entities => nameLookup getId getName entityType identifier entities

/-- Numeric value of a digit string, as Python int() of the matched
digits. -/
def digitsVal (cs : List Char) : Nat :=
  cs.foldl (fun n c => 10 * n + (c.toNat - 48)) 0

/-- Parse a nonempty all-digit character list, else none. -/
def digitsOnly (cs : List Char) : Option Nat :=
  if cs.isEmpty then none
  else if cs.all Char.isDigit then some (digitsVal cs) else none

/-- ASCII letter test, the character class of the regex in card.py. -/
def isAsciiLetter (c : Char) : Bool :=
  (decide (('a' : Char) ≤ c) && decide (c ≤ ('z' : Char))) ||
  (decide (('A' : Char) ≤ c) && decide (c ≤ ('Z' : Char)))

/-- CardResolver._parse_sequential_id (card.py lines 40-52): match the
stripped identifier against the anchored pattern of an optional hash or
alphabetic-run-plus-hyphen, then one or more digits; on a match
return the integer value of the digit group.  The three prefix shapes are
mutually exclusive on the first character, so the greedy letter run is
equivalent to the regex. -/
def parse_sequential_id (identifier : String) : Option Nat :=
  let cs := stripChars identifier.data
  match cs with
  | '#' :: rest => digitsOnly rest
  | _ =>
    if (cs.takeWhile isAsciiLetter).isEmpty then digitsOnly cs
    else
      match cs.dropWhile isAsciiLetter with
      | '-' :: rest => digitsOnly rest
      | _ => none

/-- The client the resolvers actually receive (context.py imports
FavroClient from favro_mcp.api.client).  get_cards models
FavroClient.get_cards of api/client.py lines 307-326, whose only filter
the card resolver uses is widget_common_id; get_card models
FavroClient.get_card.  Either call may fail with any client error. -/
structure CardsApi where
  get_cards : Option String → Except PyError (List Card)
  get_card : String → Except PyError Card

/-- CardResolver.resolve line 80 calls
client.get_cards(widget_common_id=board_id, card_sequential_id=seq_id),
but FavroClient.get_cards in api/client.py (lines 307-313) accepts only
widget_common_id, collection_id, column_id, todo_list and unique, and no
keyword dictionary.  Python therefore raises TypeError for the unexpected
keyword argument before any request is made, whatever the arguments. -/
def get_cards_with_seq (_cl : CardsApi) (_widget_common_id : Option String)
    (_card_sequential_id : Nat) : Except PyError (List Card) :=
  .error (.typeError
    "get_cards got an unexpected keyword argument card_sequential_id")

/-- CardResolver._fetch_by_id (card.py lines 28-32): get_card, with
FavroNotFoundError converted to None and other errors propagated. -/
def card_fetch_by_id (cl : CardsApi) (entity_id : String) :
    Except PyError (Option Card) :=
  match cl.get_card entity_id with
  | .ok c => .ok (some c)
  | .error (.favroNotFound _ _) => .ok none
  | .error e => .error e

/-- The ValueError message of card.py lines 107-110 (the source quotes
the identifier; quotes are omitted here). -/
def cardScopeMsg (identifier : String) : String :=
  "Card " ++ identifier ++
    " not found by ID. To search by name, provide --board option"

/-- CardResolver.resolve (card.py lines 54-122).  A sequential parse
routes to the get_cards call with the card_sequential_id keyword and
applies the zero/one/many rule to its result, displaying matches as
hash-sequential-colon-name; otherwise the ID fast path runs with every
exception swallowed, then a missing board_id raises ValueError, and
finally _fetch_all(board_id) feeds the generic name lookup. -/
def cardResolve (cl : CardsApi) (identifier : String)
    (board_id : Option String) : Except PyError Card :=
  match parse_sequential_id identifier with
  | some seq_id =>
    match get_cards_with_seq cl board_id seq_id with
    | .error err => .error err
    | .ok cards =>
      match cards with
      | [] => .error (.notFound "card" identifier)
      | [c] => .ok c
      | cs => .error (.ambiguousMatch "card" identifier
          (cs.map (fun c =>
            (c.card_id, "#" ++ toString c.sequential_id ++ ": " ++ c.name))))
  | none =>
    match card_fetch_by_id cl identifier with
    | .ok (some c) => .ok c
    | _ =>
      match board_id with
      | none => .error (.valueError (cardScopeMsg identifier))
      | some bid =>
        match cl.get_cards (some bid) with
        | .error err => .error err
        | .ok cards => nameLookup Card.card_id Card.name "card" identifier cards

/-- Column client surface used by ColumnResolver (api/client.py
get_columns and get_column). -/
structure ColumnsApi where
  get_columns : String → Except PyError (List Column)
  get_column : String → Except PyError Column

/-- ColumnResolver._fetch_by_id (column.py lines 25-29). -/
def column_fetch_by_id (cl : ColumnsApi) (entity_id : String) :
    Except PyError (Option Column) :=
  match cl.get_column entity_id with
  | .ok c => .ok (some c)
  | .error (.favroNotFound _ _) => .ok none
  | .error e => .error e

/-- ColumnResolver._fetch_all (column.py lines 18-23): raises ValueError
when board_id is missing, before any client call; otherwise
get_columns(board_id). -/
def column_fetch_all (cl : ColumnsApi) (board_id : Option String) :
    Except PyError (List Column) :=
  match board_id with
  | none => .error (.valueError "board_id is required to resolve columns by name")
  | some bid => cl.get_columns bid

/-- ColumnResolver.resolve is the inherited BaseResolver.resolve over the
column fetch operations. -/
def columnResolve (cl : ColumnsApi) (identifier : String)
    (board_id : Option String) : Except PyError Column :=
  baseResolve (column_fetch_by_id cl) (column_fetch_all cl board_id)
    Column.column_id Column.name "column" identifier

/-- User client surface used by UserResolver (api/client.py get_users and
get_user).  get_users is modelled as one snapshot: both calls the
resolver makes observe the same backing collection. -/
structure UsersApi where
  get_users : Except PyError (List User)
  get_user : String → Except PyError User

/-- UserResolver._fetch_by_id (user.py lines 23-27). -/
def user_fetch_by_id (cl : UsersApi) (entity_id : String) :
    Except PyError (Option User) :=
  match cl.get_user entity_id with
  | .ok u => .ok (some u)
  | .error (.favroNotFound _ _) => .ok none
  | .error e => .error e

/-- The email matching block of UserResolver.resolve (user.py lines
56-67): filter the fetched users by case-insensitive email equality; one
match is returned, several raise AmbiguousMatchError whose entries
display the name followed by the email in parentheses, and zero raise
NotFoundError for the user kind and the identifier. -/
def emailLookup (identifier : String) (users : List User) :
    Except PyError User :=
  match users.filter (fun u => lower u.email == lower identifier) with
  | [u] => .ok u
  | [] => .error (.notFound "user" identifier)
  | ms => .error (.ambiguousMatch "user" identifier
      (ms.map (fun u => (u.user_id, u.name ++ " (" ++ u.email ++ ")"))))

/-- UserResolver.resolve (user.py lines 35-67): the inherited generic
resolution runs first; only a NotFoundError from it is caught, after
which all users are fetched and matched by email. -/
def userResolve (cl : UsersApi) (identifier : String) : Except PyError User :=
  match baseResolve (user_fetch_by_id cl) cl.get_users
      User.user_id User.name "user" identifier with
  | .ok u => .ok u
  | .error (.notFound _ _) =>
    match cl.get_users with
    | .error err => .error err
    | .ok users => emailLookup identifier users
  | .error e => .error e

/-! Concrete clients and entities used by the witness theorems. -/

def aliceA : User := User.mk "u1" "Alice" "alice@x.com"

def aliceB : User := User.mk "u2" "ALICE" "a2@x.com"

def bobA : User := User.mk "u3" "Bob" "bob@x.com"

def bobB : User := User.mk "u4" "Bob" "BOB"

def fbSome : String → Except PyError (Option User) :=
  fun _ => Except.ok (some aliceA)

def fbMiss : String → Except PyError (Option User) :=
  fun _ => Except.ok none

def fbErr : String → Except PyError (Option User) :=
  fun _ => Except.error (PyError.favroAPIError 503 "service unavailable")

def usersOk : Except PyError (List User) := Except.ok [aliceA, aliceB]

def usersOne : Except PyError (List User) := Except.ok [aliceA]

def usersBoom : Except PyError (List User) :=
  Except.error (PyError.favroAPIError 500 "internal error")

def usersApiEmail : UsersApi :=
  UsersApi.mk (Except.ok [aliceA])
    (fun _ => Except.error (PyError.favroNotFound 404 "Resource not found"))

def usersApiDup : UsersApi :=
  UsersApi.mk (Except.ok [bobA, bobB])
    (fun _ => Except.error (PyError.favroNotFound 404 "Resource not found"))

def columnsApiMiss : ColumnsApi :=
  ColumnsApi.mk (fun _ => Except.ok [])
    (fun _ => Except.error (PyError.favroNotFound 404 "Resource not found"))

def sampleCard : Card := Card.mk "card-1" "Roadmap" 7

def cardsApiHit : CardsApi :=
  CardsApi.mk (fun _ => Except.ok []) (fun _ => Except.ok sampleCard)

def cardsApiMiss : CardsApi :=
  CardsApi.mk (fun _ => Except.ok [])
    (fun _ => Except.error (PyError.favroNotFound 404 "Resource not found"))

/-! Helper lemmas shared by the claim theorems. -/

/-- When the fast path yields None or any error, generic resolution is
exactly the fallback over fetchAll. -/
theorem baseResolve_of_miss {T : Type}
    (fetchById : String → Except PyError (Option T))
    (fetchAll : Except PyError (List T)) (getId : T → String)
    (getName : T → String) (entityType : String) (identifier : String)
    (h : fetchById identifier = .ok none ∨
      ∃ err, fetchById identifier = .error err) :
    baseResolve fetchById fetchAll getId getName entityType identifier =
      match fetchAll with
      | .error err => .error err
      | .ok entities => nameLookup getId getName entityType identifier entities := by
  unfold baseResolve
  rcases h with h | ⟨err, h⟩ <;> rw [h]

/-- Name lookup with an empty match set raises NotFoundError. -/
theorem nameLookup_nil {T : Type} (getId : T → String) (getName : T → String)
    (entityType : String) (identifier : String) (entities : List T)
    (h : entities.filter (fun x => lower (getName x) == lower identifier) = []) :
    nameLookup getId getName entityType identifier entities =
      .error (.notFound entityType identifier) := by
  unfold nameLookup
  rw [h]

/-- Name lookup with a single match returns it. -/
theorem nameLookup_one {T : Type} (getId : T → String) (getName : T → String)
    (entityType : String) (identifier : String) (entities : List T) (e : T)
    (h : entities.filter (fun x => lower (getName x) == lower identifier) = [e]) :
    nameLookup getId getName entityType identifier entities = .ok e := by
  unfold nameLookup
  rw [h]

/-- Name lookup with two or more matches raises AmbiguousMatchError over
the whole match list in order. -/
theorem nameLookup_many {T : Type} (getId : T → String) (getName : T → String)
    (entityType : String) (identifier : String) (entities : List T)
    (a b : T) (t : List T)
    (h : entities.filter (fun x => lower (getName x) == lower identifier) =
      a :: b :: t) :
    nameLookup getId getName entityType identifier entities =
      .error (.ambiguousMatch entityType identifier
        ((a :: b :: t).map (fun e => (getId e, getName e)))) := by
  unfold nameLookup
  rw [h]

/-- C2: for every identifier, if the ID fast path fetch succeeds with an
entity, generic resolution returns that entity, and the result does not
depend on the fetchAll collection at all, so no name based search can
influence it. -/
theorem base_fastpath_authoritative {T : Type}
    (fetchById : String → Except PyError (Option T))
    (fetchAll fetchAll2 : Except PyError (List T)) (getId : T → String)
    (getName : T → String) (entityType : String) (identifier : String) (e : T)
    (h : fetchById identifier = .ok (some e)) :
    baseResolve fetchById fetchAll getId getName entityType identifier =
      .ok e ∧
    baseResolve fetchById fetchAll getId getName entityType identifier =
      baseResolve fetchById fetchAll2 getId getName entityType identifier := by
  unfold baseResolve
  rw [h]
  exact ⟨rfl, rfl⟩

/-- Witness for C2 at a concrete client whose fast path returns Alice. -/
theorem base_fastpath_authoritative_witness :
    baseResolve fbSome usersOk User.user_id User.name "user" "u1" =
      Except.ok aliceA ∧
    baseResolve fbSome usersOk User.user_id User.name "user" "u1" =
      baseResolve fbSome usersBoom User.user_id User.name "user" "u1" :=
  base_fastpath_authoritative fbSome usersOk usersBoom User.user_id User.name
    "user" "u1" aliceA rfl

/-- C3: when the fast path misses, generic resolution filters the fetched
entities by exact case-insensitive display-name equality and applies the
zero, one, many rule; the ambiguous error carries the id and name pair of
every match, in fetch order. -/
theorem base_name_outcome {T : Type}
    (fetchById : String → Except PyError (Option T))
    (fetchAll : Except PyError (List T)) (getId : T → String)
    (getName : T → String) (entityType : String) (identifier : String)
    (entities : List T)
    (hmiss : fetchById identifier = .ok none ∨
      ∃ err, fetchById identifier = .error err)
    (hall : fetchAll = .ok entities) :
    (∀ e ∈ entities,
        (e ∈ entities.filter (fun x => lower (getName x) == lower identifier)) ↔
          lower (getName e) = lower identifier) ∧
    (entities.filter (fun x => lower (getName x) == lower identifier) = [] →
        baseResolve fetchById fetchAll getId getName entityType identifier =
          .error (.notFound entityType identifier)) ∧
    (∀ e, entities.filter (fun x => lower (getName x) == lower identifier) = [e] →
        baseResolve fetchById fetchAll getId getName entityType identifier =
          .ok e) ∧
    (∀ a b t,
        entities.filter (fun x => lower (getName x) == lower identifier) =
          a :: b :: t →
        baseResolve fetchById fetchAll getId getName entityType identifier =
          .error (.ambiguousMatch entityType identifier
            ((a :: b :: t).map (fun e => (getId e, getName e))))) := by
  refine ⟨?_, ?_, ?_, ?_⟩
  · intro e he
    simp [List.mem_filter, he, beq_iff_eq]
  · intro hf
    rw [baseResolve_of_miss _ _ _ _ _ _ hmiss, hall]
    exact nameLookup_nil _ _ _ _ _ hf
  · intro e hf
    rw [baseResolve_of_miss _ _ _ _ _ _ hmiss, hall]
    exact nameLookup_one _ _ _ _ _ _ hf
  · intro a b t hf
    rw [baseResolve_of_miss _ _ _ _ _ _ hmiss, hall]
    exact nameLookup_many _ _ _ _ _ _ _ _ hf

/-- Witness for C3 on a two-user collection both matching the name alice
case-insensitively. -/
theorem base_name_outcome_witness :
    (∀ e ∈ [aliceA, aliceB],
        (e ∈ [aliceA, aliceB].filter
            (fun x => lower (User.name x) == lower "alice")) ↔
          lower (User.name e) = lower "alice") ∧
    ([aliceA, aliceB].filter (fun x => lower (User.name x) == lower "alice") =
        [] →
        baseResolve fbMiss usersOk User.user_id User.name "user" "alice" =
          Except.error (PyError.notFound "user" "alice")) ∧
    (∀ e, [aliceA, aliceB].filter
          (fun x => lower (User.name x) == lower "alice") = [e] →
        baseResolve fbMiss usersOk User.user_id User.name "user" "alice" =
          Except.ok e) ∧
    (∀ a b t, [aliceA, aliceB].filter
          (fun x => lower (User.name x) == lower "alice") = a :: b :: t →
        baseResolve fbMiss usersOk User.user_id User.name "user" "alice" =
          Except.error (PyError.ambiguousMatch "user" "alice"
            ((a :: b :: t).map (fun e => (User.user_id e, User.name e))))) :=
  base_name_outcome fbMiss usersOk User.user_id User.name "user" "alice"
    [aliceA, aliceB] (Or.inl rfl) rfl

/-- C4: an error from the fast path fetch is swallowed and resolution is
exactly the fallback: a transport error of fetchAll propagates to the
caller unmodified, and a successful fetch feeds the name lookup. -/
theorem base_fastpath_error_swallowed {T : Type}
    (fetchById : String → Except PyError (Option T))
    (fetchAll : Except PyError (List T)) (getId : T → String)
    (getName : T → String) (entityType : String) (identifier : String)
    (err : PyError) (h : fetchById identifier = .error err) :
    (∀ terr, fetchAll = .error terr →
        baseResolve fetchById fetchAll getId getName entityType identifier =
          .error terr) ∧
    (∀ entities, fetchAll = .ok entities →
        baseResolve fetchById fetchAll getId getName entityType identifier =
          nameLookup getId getName entityType identifier entities) := by
  constructor
  · intro terr ht
    rw [baseResolve_of_miss _ _ _ _ _ _ (Or.inr ⟨err, h⟩), ht]
  · intro entities ht
    rw [baseResolve_of_miss _ _ _ _ _ _ (Or.inr ⟨err, h⟩), ht]

/-- Witness for C4 with a failing fast path and a failing fetchAll. -/
theorem base_fastpath_error_swallowed_witness :
    (∀ terr, usersBoom = Except.error terr →
        baseResolve fbErr usersBoom User.user_id User.name "user" "alice" =
          Except.error terr) ∧
    (∀ entities, usersBoom = Except.ok entities →
        baseResolve fbErr usersBoom User.user_id User.name "user" "alice" =
          nameLookup User.user_id User.name "user" "alice" entities) :=
  base_fastpath_error_swallowed fbErr usersBoom User.user_id User.name "user"
    "alice" (PyError.favroAPIError 503 "service unavailable") rfl

/-- C8: name matching is case-insensitive: two identifiers with the same
lowercasing select the same name matches from any collection, and when
the fast path misses for both, resolution returns an entity for one
exactly when it returns the same entity for the other. -/
theorem base_case_insensitive {T : Type}
    (fetchById : String → Except PyError (Option T))
    (fetchAll : Except PyError (List T)) (getId : T → String)
    (getName : T → String) (entityType : String) (id1 id2 : String)
    (h1 : fetchById id1 = .ok none ∨ ∃ err, fetchById id1 = .error err)
    (h2 : fetchById id2 = .ok none ∨ ∃ err, fetchById id2 = .error err)
    (hcase : lower id1 = lower id2) :
    (∀ entities : List T,
        entities.filter (fun x => lower (getName x) == lower id1) =
          entities.filter (fun x => lower (getName x) == lower id2)) ∧
    (∀ e, baseResolve fetchById fetchAll getId getName entityType id1 =
          .ok e ↔
        baseResolve fetchById fetchAll getId getName entityType id2 =
          .ok e) := by
  have hfilter : ∀ entities : List T,
      entities.filter (fun x => lower (getName x) == lower id1) =
        entities.filter (fun x => lower (getName x) == lower id2) := by
    intro entities
    simp only [hcase]
  refine ⟨hfilter, ?_⟩
  intro e
  rw [baseResolve_of_miss fetchById fetchAll getId getName entityType id1 h1,
    baseResolve_of_miss fetchById fetchAll getId getName entityType id2 h2]
  cases fetchAll with
  | error terr => exact Iff.rfl
  | ok entities =>
    show nameLookup getId getName entityType id1 entities = Except.ok e ↔
      nameLookup getId getName entityType id2 entities = Except.ok e
    rcases hf : entities.filter (fun x => lower (getName x) == lower id1) with
      _ | ⟨a, _ | ⟨b, t⟩⟩
    · rw [nameLookup_nil getId getName entityType id1 entities hf,
        nameLookup_nil getId getName entityType id2 entities
          ((hfilter entities).symm.trans hf)]
      simp
    · rw [nameLookup_one getId getName entityType id1 entities a hf,
        nameLookup_one getId getName entityType id2 entities a
          ((hfilter entities).symm.trans hf)]
    · rw [nameLookup_many getId getName entityType id1 entities a b t hf,
        nameLookup_many getId getName entityType id2 entities a b t
          ((hfilter entities).symm.trans hf)]
      simp

/-- Witness for C8 with the name Alice resolved by alice and ALICE. -/
theorem base_case_insensitive_witness :
    (∀ entities : List User,
        entities.filter (fun x => lower (User.name x) == lower "alice") =
          entities.filter (fun x => lower (User.name x) == lower "ALICE")) ∧
    (∀ e, baseResolve fbMiss usersOne User.user_id User.name "user" "alice" =
          Except.ok e ↔
        baseResolve fbMiss usersOne User.user_id User.name "user" "ALICE" =
          Except.ok e) :=
  base_case_insensitive fbMiss usersOne User.user_id User.name "user" "alice"
    "ALICE" (Or.inl rfl) (Or.inl rfl) (by decide)

/-- C5: a card identifier that does not parse as a sequential reference
and misses the ID fast path fails, when no board scope is supplied, with
the ValueError of card.py (the ScopeRequired failure of the spec), not
with NotFoundError, and the outcome is the same for every get_cards, so
no name search is attempted. -/
theorem card_scope_required (cl : CardsApi) (identifier : String)
    (hseq : parse_sequential_id identifier = none)
    (hmiss : card_fetch_by_id cl identifier = .ok none ∨
      ∃ err, card_fetch_by_id cl identifier = .error err) :
    cardResolve cl identifier none =
      .error (.valueError (cardScopeMsg identifier)) ∧
    (∀ f, cardResolve (CardsApi.mk f cl.get_card) identifier none =
        .error (.valueError (cardScopeMsg identifier))) ∧
    (∀ k i, cardResolve cl identifier none ≠ .error (.notFound k i)) := by
  have key : ∀ f, cardResolve (CardsApi.mk f cl.get_card) identifier none =
      .error (.valueError (cardScopeMsg identifier)) := by
    intro f
    unfold cardResolve
    rw [hseq]
    have hfb : card_fetch_by_id (CardsApi.mk f cl.get_card) identifier =
        card_fetch_by_id cl identifier := rfl
    rw [hfb]
    rcases hmiss with h | ⟨err, h⟩ <;> rw [h]
  have base : cardResolve cl identifier none =
      .error (.valueError (cardScopeMsg identifier)) := by
    unfold cardResolve
    rw [hseq]
    rcases hmiss with h | ⟨err, h⟩ <;> rw [h]
  refine ⟨base, key, ?_⟩
  intro k i
  rw [base]
  simp

/-- Witness for C5 at a concrete card client with an empty board. -/
theorem card_scope_required_witness :
    cardResolve cardsApiMiss "My Card" none =
      Except.error (PyError.valueError (cardScopeMsg "My Card")) ∧
    (∀ f, cardResolve (CardsApi.mk f cardsApiMiss.get_card) "My Card" none =
        Except.error (PyError.valueError (cardScopeMsg "My Card"))) ∧
    (∀ k i, cardResolve cardsApiMiss "My Card" none ≠
        Except.error (PyError.notFound k i)) :=
  card_scope_required cardsApiMiss "My Card" (by decide) (Or.inl rfl)

/-- C7: resolving a column with no board scope fails, once the fallback
path is reached, with the ValueError of ColumnResolver (the ScopeRequired
failure of the spec), and the outcome is the same for every get_columns,
so no unscoped collection fetch is attempted. -/
theorem column_scope_required (cl : ColumnsApi) (identifier : String)
    (hmiss : column_fetch_by_id cl identifier = .ok none ∨
      ∃ err, column_fetch_by_id cl identifier = .error err) :
    columnResolve cl identifier none =
      .error (.valueError "board_id is required to resolve columns by name") ∧
    ∀ f, columnResolve (ColumnsApi.mk f cl.get_column) identifier none =
      .error (.valueError "board_id is required to resolve columns by name") := by
  constructor
  · show baseResolve (column_fetch_by_id cl) (column_fetch_all cl none)
      Column.column_id Column.name "column" identifier = _
    rw [baseResolve_of_miss _ _ _ _ _ _ hmiss]
    rfl
  · intro f
    show baseResolve (column_fetch_by_id cl) (column_fetch_all cl none)
      Column.column_id Column.name "column" identifier = _
    rw [baseResolve_of_miss _ _ _ _ _ _ hmiss]
    rfl

/-- Witness for C7 resolving the column name Backlog without scope. -/
theorem column_scope_required_witness :
    columnResolve columnsApiMiss "Backlog" none =
      Except.error
        (PyError.valueError "board_id is required to resolve columns by name") ∧
    ∀ f, columnResolve (ColumnsApi.mk f columnsApiMiss.get_column) "Backlog"
        none =
      Except.error
        (PyError.valueError "board_id is required to resolve columns by name") :=
  column_scope_required columnsApiMiss "Backlog" (Or.inl rfl)

/-- When the generic phase fails with NotFoundError, the user resolver is
the email phase over a fresh user fetch. -/
theorem userResolve_email_phase (cl : UsersApi) (identifier : String)
    (hbase : baseResolve (user_fetch_by_id cl) cl.get_users
        User.user_id User.name "user" identifier =
      .error (.notFound "user" identifier)) :
    userResolve cl identifier =
      match cl.get_users with
      | .error err => .error err
      | .ok users => emailLookup identifier users := by
  unfold userResolve
  rw [hbase]

/-- Email lookup with no match raises NotFoundError again. -/
theorem emailLookup_nil (identifier : String) (users : List User)
    (h : users.filter (fun u => lower u.email == lower identifier) = []) :
    emailLookup identifier users = .error (.notFound "user" identifier) := by
  unfold emailLookup
  rw [h]

/-- Email lookup with one match returns it. -/
theorem emailLookup_one (identifier : String) (users : List User) (u : User)
    (h : users.filter (fun u => lower u.email == lower identifier) = [u]) :
    emailLookup identifier users = .ok u := by
  unfold emailLookup
  rw [h]

/-- Email lookup with several matches raises AmbiguousMatchError whose
entries display the name and the parenthesised email. -/
theorem emailLookup_many (identifier : String) (users : List User)
    (a b : User) (t : List User)
    (h : users.filter (fun u => lower u.email == lower identifier) =
      a :: b :: t) :
    emailLookup identifier users =
      .error (.ambiguousMatch "user" identifier
        ((a :: b :: t).map
          (fun u => (u.user_id, u.name ++ " (" ++ u.email ++ ")")))) := by
  unfold emailLookup
  rw [h]

/-- C6: after the generic algorithm fails with NotFoundError, the user
resolver fetches all users and matches the identifier against emails,
case-insensitively and exactly: zero matches fail with NotFoundError for
user and the identifier, one match is returned, and several fail with
AmbiguousMatchError whose entries display the name followed by the email
in parentheses. -/
theorem user_email_third_path (cl : UsersApi) (identifier : String)
    (users : List User)
    (hbase : baseResolve (user_fetch_by_id cl) cl.get_users
        User.user_id User.name "user" identifier =
      .error (.notFound "user" identifier))
    (husers : cl.get_users = .ok users) :
    (users.filter (fun u => lower u.email == lower identifier) = [] →
        userResolve cl identifier = .error (.notFound "user" identifier)) ∧
    (∀ u, users.filter (fun u => lower u.email == lower identifier) = [u] →
        userResolve cl identifier = .ok u) ∧
    (∀ a b t,
        users.filter (fun u => lower u.email == lower identifier) =
          a :: b :: t →
        userResolve cl identifier =
          .error (.ambiguousMatch "user" identifier
            ((a :: b :: t).map
              (fun u => (u.user_id, u.name ++ " (" ++ u.email ++ ")"))))) := by
  refine ⟨?_, ?_, ?_⟩
  · intro hf
    rw [userResolve_email_phase cl identifier hbase, husers]
    exact emailLookup_nil identifier users hf
  · intro u hf
    rw [userResolve_email_phase cl identifier hbase, husers]
    exact emailLookup_one identifier users u hf
  · intro a b t hf
    rw [userResolve_email_phase cl identifier hbase, husers]
    exact emailLookup_many identifier users a b t hf

/-- Witness for C6: Alice is found by her email after the generic phase
reports NotFoundError. -/
theorem user_email_third_path_witness :
    ([aliceA].filter (fun u => lower u.email == lower "alice@x.com") = [] →
        userResolve usersApiEmail "alice@x.com" =
          Except.error (PyError.notFound "user" "alice@x.com")) ∧
    (∀ u, [aliceA].filter (fun u => lower u.email == lower "alice@x.com") =
          [u] →
        userResolve usersApiEmail "alice@x.com" = Except.ok u) ∧
    (∀ a b t, [aliceA].filter
          (fun u => lower u.email == lower "alice@x.com") = a :: b :: t →
        userResolve usersApiEmail "alice@x.com" =
          Except.error (PyError.ambiguousMatch "user" "alice@x.com"
            ((a :: b :: t).map
              (fun u => (u.user_id, u.name ++ " (" ++ u.email ++ ")"))))) :=
  user_email_third_path usersApiEmail "alice@x.com" [aliceA] rfl rfl

/-- C9: an AmbiguousMatchError from the generic algorithm propagates from
the user resolver unchanged and the email path never runs, even when the
identifier matches exactly one user by email. -/
theorem user_ambiguous_stops_email (cl : UsersApi) (identifier : String)
    (et n : String) (ms : List (String × String)) (users : List User)
    (u : User)
    (hbase : baseResolve (user_fetch_by_id cl) cl.get_users
        User.user_id User.name "user" identifier =
      .error (.ambiguousMatch et n ms))
    (husers : cl.get_users = .ok users)
    (hemail : users.filter (fun x => lower x.email == lower identifier) = [u]) :
    userResolve cl identifier = .error (.ambiguousMatch et n ms) := by
  unfold userResolve
  rw [hbase]

/-- Witness for C9: two users named Bob, one of whom the identifier Bob
matches by email, still yield the ambiguous name error. -/
theorem user_ambiguous_stops_email_witness :
    userResolve usersApiDup "Bob" =
      Except.error
        (PyError.ambiguousMatch "user" "Bob" [("u3", "Bob"), ("u4", "Bob")]) :=
  user_ambiguous_stops_email usersApiDup "Bob" "user" "Bob"
    [("u3", "Bob"), ("u4", "Bob")] [bobA, bobB] bobB rfl rfl (by decide)

/-- C1: the identifiers hash-42, bare 42, and ABC-42 all parse as the
sequential reference 42 and take the sequential path first, but on that
path resolution calls get_cards with the card_sequential_id keyword that
FavroClient.get_cards of api/client.py does not accept, so instead of
resolving to the card with sequential number 42 every such call, for
every client and scope, raises TypeError. -/
theorem card_sequential_type_error (cl : CardsApi) (board_id : Option String) :
    parse_sequential_id "#42" = some 42 ∧
    parse_sequential_id "42" = some 42 ∧
    parse_sequential_id "ABC-42" = some 42 ∧
    cardResolve cl "#42" board_id = .error (.typeError
      "get_cards got an unexpected keyword argument card_sequential_id") ∧
    cardResolve cl "42" board_id = .error (.typeError
      "get_cards got an unexpected keyword argument card_sequential_id") ∧
    cardResolve cl "ABC-42" board_id = .error (.typeError
      "get_cards got an unexpected keyword argument card_sequential_id") := by
  refine ⟨by decide, by decide, by decide, ?_, ?_, ?_⟩
  · unfold cardResolve
    rw [show parse_sequential_id "#42" = some 42 from by decide]
    rfl
  · unfold cardResolve
    rw [show parse_sequential_id "42" = some 42 from by decide]
    rfl
  · unfold cardResolve
    rw [show parse_sequential_id "ABC-42" = some 42 from by decide]
    rfl

/-- C10: an all-digit identifier is taken as a sequential reference, and
the sequential path is final: it raises TypeError from the get_cards call
with no fallback, so the resolver never returns the entity get_card would
have produced for that identifier and never reports NotFoundError on this
path. -/
theorem card_sequential_no_fallback (cl : CardsApi) (board_id : Option String)
    (c : Card) (hid : cl.get_card "42" = .ok c) :
    cardResolve cl "42" board_id = .error (.typeError
      "get_cards got an unexpected keyword argument card_sequential_id") ∧
    cardResolve cl "42" board_id ≠ .ok c ∧
    ∀ k i, cardResolve cl "42" board_id ≠ .error (.notFound k i) := by
  have base : cardResolve cl "42" board_id = .error (.typeError
      "get_cards got an unexpected keyword argument card_sequential_id") := by
    unfold cardResolve
    rw [show parse_sequential_id "42" = some 42 from by decide]
    rfl
  refine ⟨base, ?_, ?_⟩
  · rw [base]
    simp
  · intro k i
    rw [base]
    simp

/-- Witness for C10: a client whose get_card would return a card for the
literal ID 42 still sees the sequential-path TypeError. -/
theorem card_sequential_no_fallback_witness :
    cardResolve cardsApiHit "42" none = Except.error (PyError.typeError
      "get_cards got an unexpected keyword argument card_sequential_id") ∧
    cardResolve cardsApiHit "42" none ≠ Except.ok sampleCard ∧
    ∀ k i, cardResolve cardsApiHit "42" none ≠
      Except.error (PyError.notFound k i) :=
  card_sequential_no_fallback cardsApiHit none sampleCard rfl

end FavroMCP
